import Mathlib

/-
  Verification of the keychange repository's core against its specification.

  Shallow embedding conventions:
  * Python floats are modelled by exact rationals (ℚ); the real-valued
    Pearson correlation (np.corrcoef) is modelled over ℝ, since it divides
    by square roots of variances.
  * The chroma-extraction DSP routine (librosa.feature.chroma_cqt followed
    by np.mean over time) is the external collaborator of spec §6; the
    estimator is therefore embedded as a function of the averaged chroma
    vector it receives from that collaborator.
  * Division by zero: Lean's ℚ and ℝ return 0 on division by zero, where
    NumPy produces NaN (for 0/0) with a runtime warning, not an exception.
    At the two degenerate inputs used below (the all-zero chroma window and
    the constant chroma window) the NumPy NaN cascade in _analyze_audio
    ends in the minor branch at index 0 ("C minor"): max over a list of
    NaNs returns its first element, NaN > NaN is False, and list.index
    finds that first element by identity.  The junk-value embedding yields
    correlation 0 for every candidate at those same inputs and hence the
    same final result (minor, 0), so the embedded output string agrees
    with the source's output there.
-/

namespace Keychange

/-- src/keydetector.py: PITCH_CLASSES, the fixed pitch-class name table in
the order C, C#, D, D#, E, F, F#, G, G#, A, A#, B. -/
def PITCH_CLASSES : Fin 12 → String
  | 0 => "C"
  | 1 => "C#"
  | 2 => "D"
  | 3 => "D#"
  | 4 => "E"
  | 5 => "F"
  | 6 => "F#"
  | 7 => "G"
  | 8 => "G#"
  | 9 => "A"
  | 10 => "A#"
  | 11 => "B"

/-- src/keydetector.py: MAJOR_PROFILE (Krumhansl–Schmuckler major template). -/
def MAJOR_PROFILE : Fin 12 → ℚ :=
  ![6.35, 2.23, 3.48, 2.33, 4.38, 4.09, 2.52, 5.19, 2.39, 3.66, 2.29, 2.88]

/-- src/keydetector.py: MINOR_PROFILE (Krumhansl–Schmuckler minor template). -/
def MINOR_PROFILE : Fin 12 → ℚ :=
  ![6.33, 2.68, 3.52, 5.38, 2.60, 3.53, 2.54, 4.75, 3.98, 2.69, 3.34, 3.17]

/-- The two modes a key estimate can carry. -/
inductive Mode where
  | major
  | minor
deriving DecidableEq, Repr

/-- np.roll(a, k) over a 12-vector: entry j of the rolled vector is entry
(j - k) mod 12 of the original. -/
def roll (c : Fin 12 → ℚ) (k : Fin 12) : Fin 12 → ℚ :=
  fun j => c (j - k)

/-- src/keydetector.py line 270: chroma_means / chroma_means.sum().
ℚ division by zero yields 0 (NumPy would yield NaN entries; see header). -/
def normalize (c : Fin 12 → ℚ) : Fin 12 → ℚ :=
  fun j => c j / (∑ i, c i)

/-- Arithmetic mean of a 12-vector, as used by np.corrcoef internally. -/
noncomputable def mean (x : Fin 12 → ℝ) : ℝ :=
  (∑ i, x i) / 12

/-- Sum of products of deviations from the mean.  np.corrcoef computes the
covariance with a 1/(n-1) factor, which cancels in the correlation
quotient, so this unnormalized form gives the same correlation. -/
noncomputable def cov (x y : Fin 12 → ℝ) : ℝ :=
  ∑ i, (x i - mean x) * (y i - mean y)

/-- Pearson correlation coefficient, np.corrcoef(x, y)[0, 1].
Degenerate denominators (zero variance) give 0 here where NumPy gives NaN;
see the header comment for why the embedded estimator still agrees with
the source at the degenerate inputs used below. -/
noncomputable def corr (x y : Fin 12 → ℝ) : ℝ :=
  cov x y / (Real.sqrt (cov x x) * Real.sqrt (cov y y))

/-- Pearson correlation of two rational 12-vectors. -/
noncomputable def corrQ (x y : Fin 12 → ℚ) : ℝ :=
  corr (fun i => (x i : ℝ)) (fun i => (y i : ℝ))

/-- src/keydetector.py lines 277-279: the major candidate scores,
np.corrcoef(MAJOR_PROFILE, np.roll(chroma_means, i))[0, 1] for i in 0..11,
where chroma_means is already normalized. -/
noncomputable def majorCorrs (c : Fin 12 → ℚ) : Fin 12 → ℝ :=
  fun i => corrQ MAJOR_PROFILE (roll (normalize c) i)

/-- src/keydetector.py lines 277-279: the minor candidate scores. -/
noncomputable def minorCorrs (c : Fin 12 → ℚ) : Fin 12 → ℝ :=
  fun i => corrQ MINOR_PROFILE (roll (normalize c) i)

/-- Python max over a nonempty list of comparable values: the maximum. -/
def maxOver {α : Type} [LinearOrder α] (f : Fin 12 → α) : α :=
  Finset.univ.sup' Finset.univ_nonempty f

/-- The candidates attaining the maximum, as a nonempty finset. -/
def argmaxSet {α : Type} [LinearOrder α] (f : Fin 12 → α) : Finset (Fin 12) :=
  Finset.univ.filter (fun i => f i = maxOver f)

theorem argmaxSet_nonempty {α : Type} [LinearOrder α] (f : Fin 12 → α) :
    (argmaxSet f).Nonempty := by
  obtain ⟨i, _, hi⟩ := Finset.exists_mem_eq_sup' (Finset.univ_nonempty) f
  exact ⟨i, Finset.mem_filter.mpr ⟨Finset.mem_univ i, hi.symm⟩⟩

/-- Python list.index(max(list)): the first (lowest) index attaining the
maximum of the list. -/
def firstArgmax {α : Type} [LinearOrder α] (f : Fin 12 → α) : Fin 12 :=
  (argmaxSet f).min' (argmaxSet_nonempty f)

/-- src/keydetector.py lines 281-291: given the major and minor score
lists, pick max_major_corr = max(majors) and max_minor_corr = max(minors);
if max_major_corr > max_minor_corr the mode is major and the index is
majors.index(max_major_corr), otherwise the mode is minor and the index is
minors.index(max_minor_corr). -/
def selectCandidate {α : Type} [LinearOrder α] (fM fm : Fin 12 → α) : Mode × Fin 12 :=
  if maxOver fM > maxOver fm then
    (Mode.major, firstArgmax fM)
  else
    (Mode.minor, firstArgmax fm)

/-- src/keydetector.py _analyze_audio, selection stage: the (mode,
rotation) candidate chosen for an averaged chroma window. -/
noncomputable def analyzeChroma (c : Fin 12 → ℚ) : Mode × Fin 12 :=
  selectCandidate (majorCorrs c) (minorCorrs c)

/-- The score that a (mode, rotation) candidate receives from the two
score lists, shared between the generic selection lemmas and the
estimator-level statements. -/
def candScore {α : Type} (fM fm : Fin 12 → α) : Mode × Fin 12 → α :=
  fun p => match p.1 with
    | Mode.major => fM p.2
    | Mode.minor => fm p.2

/-- The correlation score of a given (mode, rotation) candidate. -/
noncomputable def candidateCorr (c : Fin 12 → ℚ) : Mode × Fin 12 → ℝ :=
  candScore (majorCorrs c) (minorCorrs c)

/-- src/keydetector.py line 293: the returned string
f"{PITCH_CLASSES[key_idx]} {mode}". -/
noncomputable def analyzeAudio (c : Fin 12 → ℚ) : String :=
  match analyzeChroma c with
  | (Mode.major, i) => PITCH_CLASSES i ++ " major"
  | (Mode.minor, i) => PITCH_CLASSES i ++ " minor"

/-- The all-zero averaged chroma vector of a silent window. -/
def zeroChroma : Fin 12 → ℚ := fun _ => 0

/-- A constant (flat) averaged chroma vector: every pitch class carries the
same energy.  Its sum is 12, so it is a non-silent window. -/
def uniformChroma : Fin 12 → ℚ := fun _ => 1

/-! ### Queues (C4)

Python's queue.Queue(maxsize) blocks a put while the queue holds maxsize
items; maxsize = 0 (the default, used at src/keydetector.py line 37 and
src/srt_stream.py line 23) means the capacity is infinite and a put always
appends.  get with a timeout raises queue.Empty on expiry, and
get_nowait raises queue.Empty immediately when no item is available; the
embedding returns an Option instead of raising. -/

structure PyQueue (α : Type) where
  maxsize : ℕ
  items : List α

/-- queue.Queue.put: appends when the queue is unbounded (maxsize = 0) or
not yet full; a put on a full bounded queue blocks, leaving the queue
unchanged. -/
def PyQueue.put {α : Type} (q : PyQueue α) (x : α) : PyQueue α :=
  if q.maxsize = 0 ∨ q.items.length < q.maxsize then
    { q with items := q.items ++ [x] }
  else q

/-- queue.Queue.get_nowait (src/srt_stream.py get_audio_block): the head
item if any, else the empty outcome. -/
def PyQueue.getNowait {α : Type} (q : PyQueue α) : Option (α × PyQueue α) :=
  match q.items with
  | [] => none
  | x :: rest => some (x, { q with items := rest })

/-- A sequence of puts. -/
def PyQueue.putAll {α : Type} (q : PyQueue α) (xs : List α) : PyQueue α :=
  xs.foldl PyQueue.put q

/-- src/keydetector.py line 37: self.audio_queue = queue.Queue(), i.e. an
unbounded queue (maxsize 0), initially empty. -/
def kdAudioQueue : PyQueue (List ℚ) := { maxsize := 0, items := [] }

/-- src/srt_stream.py line 23: self.audio_queue = queue.Queue(), i.e. an
unbounded queue (maxsize 0), initially empty. -/
def srtAudioQueue : PyQueue (List ℚ) := { maxsize := 0, items := [] }

/-! ### Sliding-window buffer (C5) -/

/-- src/keydetector.py line 187: required_samples =
int(self.analysis_duration * self.sample_rate); Python int() truncates
toward zero, which for the nonnegative durations used here is the floor. -/
def requiredSamples (analysisDuration : ℚ) (sampleRate : ℕ) : ℕ :=
  (⌊analysisDuration * sampleRate⌋).toNat

/-- src/keydetector.py lines 208-212: concatenate the new block onto the
buffer; if the result is longer than required_samples keep the trailing
slice stream_buffer[-required_samples:].  NumPy's arr[-r:] keeps the last
r elements when r > 0, but arr[-0:] is the whole array, so a zero
required_samples performs no trim. -/
def appendBlock (required : ℕ) (buf block : List ℚ) : List ℚ :=
  if required < (buf ++ block).length then
    if required = 0 then buf ++ block
    else (buf ++ block).drop ((buf ++ block).length - required)
  else buf ++ block

/-- src/keydetector.py line 215: the analysis call is guarded by
len(self.stream_buffer) >= required_samples. -/
def analysisRuns (required : ℕ) (buf : List ℚ) : Bool :=
  required ≤ buf.length

/-- One iteration of the buffer-maintenance part of _process_stream
(src/keydetector.py lines 207-215): append and trim the incoming block,
then report whether this iteration analyzes the buffer. -/
def processIteration (required : ℕ) (buf block : List ℚ) : List ℚ × Bool :=
  let b := appendBlock required buf block
  (b, analysisRuns required b)

/-! ### VST processors and the plugin chain (C6, C10)

src/vst_stream.py process_block returns the input unchanged while the
source is not streaming, and otherwise returns plugin.process(input), the
external vst3 collaborator's transformation (it also enqueues the
processed block on the source's own audio_queue, a side effect that does
not affect the returned block and is omitted here).  src/vst_chain.py
holds an ordered list of such processors. -/

structure Processor (β : Type) where
  streaming : Bool
  fn : β → β

/-- src/vst_stream.py lines 61-80: process_block. -/
def Processor.processBlock {β : Type} (p : Processor β) (x : β) : β :=
  if p.streaming then p.fn x else x

/-- src/vst_stream.py line 45-51 / 53-59: start_stream and stop_stream
toggle the streaming flag (idempotently). -/
def Processor.startStream {β : Type} (p : Processor β) : Processor β :=
  { p with streaming := true }

/-- A freshly constructed VSTStreamSource: _streaming is False. -/
def mkProcessor {β : Type} (f : β → β) : Processor β :=
  { streaming := false, fn := f }

structure PluginChain (β : Type) where
  plugins : List (Processor β)
  streaming : Bool

/-- src/vst_chain.py line 9-20: a freshly constructed chain has no plugins
and is not streaming. -/
def emptyChain (β : Type) : PluginChain β :=
  { plugins := [], streaming := false }

/-- src/vst_chain.py lines 22-48: add_plugin appends the new processor at
the tail of the chain. -/
def PluginChain.addPlugin {β : Type} (c : PluginChain β) (p : Processor β) :
    PluginChain β :=
  { c with plugins := c.plugins ++ [p] }

/-- src/vst_chain.py lines 122-138: process_block returns the input
unchanged when the chain is not streaming or holds no plugins, and
otherwise folds the block through the members in chain order. -/
def PluginChain.processBlock {β : Type} (c : PluginChain β) (x : β) : β :=
  if ¬ c.streaming ∨ c.plugins.isEmpty then x
  else c.plugins.foldl (fun d p => p.processBlock d) x

/-- src/vst_chain.py lines 104-111: start_stream is a no-op when already
streaming; otherwise it calls start_stream on each member in forward
order (the returned list records the member indices in invocation order)
and sets the streaming flag. -/
def PluginChain.startStream {β : Type} (c : PluginChain β) :
    PluginChain β × List ℕ :=
  if c.streaming then (c, [])
  else
    ({ plugins := c.plugins.map Processor.startStream, streaming := true },
     List.range c.plugins.length)

/-- src/vst_chain.py lines 113-120: stop_stream is a no-op when not
streaming; otherwise it calls stop_stream on each member in reverse order
(the returned list records the member indices in invocation order) and
clears the streaming flag. -/
def PluginChain.stopStream {β : Type} (c : PluginChain β) :
    PluginChain β × List ℕ :=
  if ¬ c.streaming then (c, [])
  else
    ({ plugins := c.plugins.map (fun p => { p with streaming := false }),
       streaming := false },
     (List.range c.plugins.length).reverse)

/-! ### Plugin parameters (C7) -/

inductive ParamError where
  | UnknownParameter
  | ParameterOutOfRange
deriving DecidableEq, Repr

structure VSTPlugin where
  params : List (String × ℚ)

/-- Modelled from the spec: the vst3 plugin-hosting collaborator's
set_parameter, which src/vst_stream.py set_plugin_parameter (lines 86-94)
and src/vst_chain.py set_plugin_parameter (lines 85-102) delegate to and
whose checks are declared in their docstrings (KeyError for an unknown
name, ValueError for a value outside [0, 1]) but implemented outside this
repository; spec §4.2: fail with UnknownParameter if the name is not
recognized, ParameterOutOfRange if the value is outside [0, 1], and make
a successful set immediately visible to get_parameters. -/
def VSTPlugin.setParameter (p : VSTPlugin) (name : String) (v : ℚ) :
    Except ParamError VSTPlugin :=
  if (p.params.lookup name).isNone then
    .error .UnknownParameter
  else if v < 0 ∨ 1 < v then
    .error .ParameterOutOfRange
  else
    .ok { params := p.params.map (fun kv => if kv.1 = name then (name, v) else kv) }

/-- Modelled from the spec: the collaborator's get_parameters, the current
name→value map (src/vst_stream.py lines 82-84 return it unchanged). -/
def VSTPlugin.getParameters (p : VSTPlugin) : List (String × ℚ) :=
  p.params

/-! ### Key-change notification (C8) -/

/-- One estimator outcome handled by the analysis loop,
src/keydetector.py lines 216-220: if the new key differs from the stored
current key and a listener is registered, the listener is invoked with
(old key, new key) — the stored key still holding its pre-update value —
and then the stored key is set to the new key.  The returned list holds
the (old, new) pairs the listener receives during this step. -/
def keyChangeStep (hasListener : Bool) (currentKey newKey : String) :
    String × List (String × String) :=
  (newKey,
   if newKey ≠ currentKey ∧ hasListener = true then [(currentKey, newKey)] else [])

/-! ### Session start/stop state machines (C9)

Observable side effects of KeyDetector.start_stream/stop_stream
(src/keydetector.py lines 88-157, device path) and of
SRTStreamSource.start_stream/stop_stream (src/srt_stream.py lines 33-74),
recorded as event lists.  Both stop paths join their worker thread with
timeout=1.0 seconds. -/

inductive SessionEvent where
  | openStream
  | startThread
  | stopStream
  | closeStream
  | joinThread (timeoutSeconds : ℚ)
  | openContainer
  | closeContainer
deriving DecidableEq, Repr

structure Session where
  streaming : Bool

/-- src/keydetector.py lines 88-138 (device path): start_stream returns at
once when already streaming; otherwise it opens the input stream, starts
it, sets _streaming and spawns the processing thread. -/
def kdStart (s : Session) : Session × List SessionEvent :=
  if s.streaming then (s, [])
  else ({ streaming := true },
        [SessionEvent.openStream, SessionEvent.startThread])

/-- src/keydetector.py lines 140-157 (device path): stop_stream returns at
once when not streaming; otherwise it clears _streaming, stops and closes
the input stream and joins the processing thread with timeout=1.0. -/
def kdStop (s : Session) : Session × List SessionEvent :=
  if ¬ s.streaming then (s, [])
  else ({ streaming := false },
        [SessionEvent.stopStream, SessionEvent.closeStream,
         SessionEvent.joinThread 1])

/-- src/srt_stream.py lines 33-60: start_stream returns at once when
already streaming; otherwise it opens the container, sets _streaming and
spawns the decode thread. -/
def srtStart (s : Session) : Session × List SessionEvent :=
  if s.streaming then (s, [])
  else ({ streaming := true },
        [SessionEvent.openContainer, SessionEvent.startThread])

/-- src/srt_stream.py lines 62-74: stop_stream returns at once when not
streaming; otherwise it clears _streaming, joins the decode thread with
timeout=1.0 and closes the container. -/
def srtStop (s : Session) : Session × List SessionEvent :=
  if ¬ s.streaming then (s, [])
  else ({ streaming := false },
        [SessionEvent.joinThread 1, SessionEvent.closeContainer])

/-! ## Lemmas about the estimator's selection stage -/

theorem le_maxOver {α : Type} [LinearOrder α] (f : Fin 12 → α) (j : Fin 12) :
    f j ≤ maxOver f :=
  Finset.le_sup' f (Finset.mem_univ j)

theorem firstArgmax_eq {α : Type} [LinearOrder α] (f : Fin 12 → α) :
    f (firstArgmax f) = maxOver f := by
  have h : firstArgmax f ∈ argmaxSet f := Finset.min'_mem _ _
  exact (Finset.mem_filter.mp h).2

theorem firstArgmax_le {α : Type} [LinearOrder α] (f : Fin 12 → α) (j : Fin 12)
    (h : f j = maxOver f) : firstArgmax f ≤ j :=
  Finset.min'_le _ _ (Finset.mem_filter.mpr ⟨Finset.mem_univ j, h⟩)

theorem maxOver_const {α : Type} [LinearOrder α] (a : α) :
    maxOver (fun _ : Fin 12 => a) = a := by
  simp [maxOver]

theorem firstArgmax_const {α : Type} [LinearOrder α] (a : α) :
    firstArgmax (fun _ : Fin 12 => a) = 0 := by
  apply le_antisymm
  · apply Finset.min'_le
    simp [argmaxSet, maxOver_const]
  · exact Fin.zero_le _

theorem selectCandidate_pos {α : Type} [LinearOrder α] (fM fm : Fin 12 → α)
    (h : maxOver fm < maxOver fM) :
    selectCandidate fM fm = (Mode.major, firstArgmax fM) := by
  simp [selectCandidate, h]

theorem selectCandidate_neg {α : Type} [LinearOrder α] (fM fm : Fin 12 → α)
    (h : ¬ maxOver fm < maxOver fM) :
    selectCandidate fM fm = (Mode.minor, firstArgmax fm) := by
  simp [selectCandidate, h]

theorem selectCandidate_tie {α : Type} [LinearOrder α] (fM fm : Fin 12 → α)
    (h : maxOver fM = maxOver fm) :
    selectCandidate fM fm = (Mode.minor, firstArgmax fm) :=
  selectCandidate_neg fM fm (by rw [h]; exact lt_irrefl _)

theorem selectCandidate_is_max {α : Type} [LinearOrder α] (fM fm : Fin 12 → α)
    (p : Mode × Fin 12) :
    candScore fM fm p ≤ candScore fM fm (selectCandidate fM fm) := by
  obtain ⟨m, j⟩ := p
  by_cases h : maxOver fm < maxOver fM
  · rw [selectCandidate_pos fM fm h]
    have hc : candScore fM fm (Mode.major, firstArgmax fM) = maxOver fM := by
      simp [candScore, firstArgmax_eq]
    rw [hc]
    cases m with
    | major => exact le_maxOver fM j
    | minor => exact le_trans (le_maxOver fm j) (le_of_lt h)
  · rw [selectCandidate_neg fM fm h]
    have hc : candScore fM fm (Mode.minor, firstArgmax fm) = maxOver fm := by
      simp [candScore, firstArgmax_eq]
    rw [hc]
    cases m with
    | major => exact le_trans (le_maxOver fM j) (le_of_not_lt h)
    | minor => exact le_maxOver fm j

theorem selectCandidate_lowest {α : Type} [LinearOrder α] (fM fm : Fin 12 → α)
    (j : Fin 12)
    (h : candScore fM fm ((selectCandidate fM fm).1, j) =
         candScore fM fm (selectCandidate fM fm)) :
    (selectCandidate fM fm).2 ≤ j := by
  by_cases hgt : maxOver fm < maxOver fM
  · rw [selectCandidate_pos fM fm hgt] at h ⊢
    simp only [candScore] at h
    exact firstArgmax_le fM j (h.trans (firstArgmax_eq fM))
  · rw [selectCandidate_neg fM fm hgt] at h ⊢
    simp only [candScore] at h
    exact firstArgmax_le fm j (h.trans (firstArgmax_eq fm))

/-! ## Lemmas about degenerate correlations -/

theorem mean_const (a : ℝ) : mean (fun _ => a) = a := by
  simp [mean, Finset.sum_const, Finset.card_univ]

theorem cov_const_right (x : Fin 12 → ℝ) (a : ℝ) : cov x (fun _ => a) = 0 := by
  simp [cov, mean_const]

theorem corr_const_right (x : Fin 12 → ℝ) (a : ℝ) : corr x (fun _ => a) = 0 := by
  simp [corr, cov_const_right]

theorem corrQ_const_right (x : Fin 12 → ℚ) (a : ℚ) : corrQ x (fun _ => a) = 0 :=
  corr_const_right _ _

theorem normalize_zeroSum (c : Fin 12 → ℚ) (h : (∑ i, c i) = 0) :
    normalize c = fun _ => 0 := by
  funext j
  simp [normalize, h]

theorem normalize_uniform : normalize uniformChroma = fun _ => 1 / 12 := by
  funext j
  simp [normalize, uniformChroma]

theorem majorCorrs_flat (c : Fin 12 → ℚ) (a : ℚ) (h : normalize c = fun _ => a) :
    majorCorrs c = fun _ => 0 := by
  funext i
  show corrQ MAJOR_PROFILE (roll (normalize c) i) = 0
  rw [h]
  exact corrQ_const_right _ _

theorem minorCorrs_flat (c : Fin 12 → ℚ) (a : ℚ) (h : normalize c = fun _ => a) :
    minorCorrs c = fun _ => 0 := by
  funext i
  show corrQ MINOR_PROFILE (roll (normalize c) i) = 0
  rw [h]
  exact corrQ_const_right _ _

theorem analyzeChroma_flat (c : Fin 12 → ℚ) (a : ℚ) (h : normalize c = fun _ => a) :
    analyzeChroma c = (Mode.minor, 0) := by
  show selectCandidate (majorCorrs c) (minorCorrs c) = (Mode.minor, 0)
  rw [majorCorrs_flat c a h, minorCorrs_flat c a h]
  rw [selectCandidate_tie _ _ rfl, firstArgmax_const]

/-! ## Claim theorems -/

/-- C1, counterexample: the all-zero (silent) averaged chroma window sums
to zero, yet the estimator does not return the literal "Unknown" — the
normalization division is unguarded (src/keydetector.py line 270), and the
NaN cascade lands in the minor branch, so the result is "C minor". -/
theorem C1_counterexample :
    (∑ i, zeroChroma i) = 0 ∧ analyzeAudio zeroChroma ≠ "Unknown" := by
  have h : normalize zeroChroma = fun _ => 0 :=
    normalize_zeroSum zeroChroma (by simp [zeroChroma])
  have ha := analyzeChroma_flat zeroChroma 0 h
  constructor
  · simp [zeroChroma]
  · simp [analyzeAudio, ha, PITCH_CLASSES]

/-- C1, amended: for the all-zero (silent) window the estimator divides by
the zero sum without any guard; no exception escapes (NumPy yields NaNs
with a warning), and the returned estimate is "C minor" — the first
minor-mode candidate — rather than "Unknown". -/
theorem C1_silent_window_returns_C_minor :
    analyzeAudio zeroChroma = "C minor" := by
  have h : normalize zeroChroma = fun _ => 0 :=
    normalize_zeroSum zeroChroma (by simp [zeroChroma])
  have ha := analyzeChroma_flat zeroChroma 0 h
  simp [analyzeAudio, ha, PITCH_CLASSES]

/-- C2, counterexample: the constant chroma window is non-silent and every
one of the 24 candidates attains the same (maximal) correlation, yet the
estimator does not select a major-mode candidate: the strict comparison
max_major_corr > max_minor_corr fails on the tie and the minor branch is
taken (src/keydetector.py lines 286-291). -/
theorem C2_counterexample :
    (∑ i, uniformChroma i) ≠ 0 ∧
    maxOver (majorCorrs uniformChroma) = maxOver (minorCorrs uniformChroma) ∧
    (analyzeChroma uniformChroma).1 ≠ Mode.major := by
  have hM := majorCorrs_flat uniformChroma (1 / 12) normalize_uniform
  have hm := minorCorrs_flat uniformChroma (1 / 12) normalize_uniform
  refine ⟨by simp [uniformChroma], by rw [hM, hm], ?_⟩
  rw [analyzeChroma_flat uniformChroma (1 / 12) normalize_uniform]
  simp

/-- C2, amended: when the maximum major correlation exactly equals the
maximum minor correlation the estimator selects the minor-mode candidate
(the strict > falls through to the minor branch), whose rotation index is
the lowest index attaining the minor maximum; and in every case the
returned rotation index is the lowest index of the chosen mode's list that
attains the chosen candidate's score. -/
theorem C2_tie_prefers_minor_then_lowest_index : ∀ c : Fin 12 → ℚ,
    (maxOver (majorCorrs c) = maxOver (minorCorrs c) →
      analyzeChroma c = (Mode.minor, firstArgmax (minorCorrs c))) ∧
    (∀ j : Fin 12,
      candidateCorr c ((analyzeChroma c).1, j) = candidateCorr c (analyzeChroma c) →
      (analyzeChroma c).2 ≤ j) := by
  intro c
  constructor
  · intro h
    exact selectCandidate_tie (majorCorrs c) (minorCorrs c) h
  · intro j h
    exact selectCandidate_lowest (majorCorrs c) (minorCorrs c) j h

/-- C2, witness: the amended tie-break theorem applied at the constant
chroma window, where all 24 candidates score 0. -/
theorem C2_witness :
    maxOver (majorCorrs uniformChroma) = maxOver (minorCorrs uniformChroma) ∧
    analyzeChroma uniformChroma = (Mode.minor, firstArgmax (minorCorrs uniformChroma)) ∧
    (analyzeChroma uniformChroma).2 ≤ 5 := by
  have hM := majorCorrs_flat uniformChroma (1 / 12) normalize_uniform
  have hm := minorCorrs_flat uniformChroma (1 / 12) normalize_uniform
  have htie : maxOver (majorCorrs uniformChroma) = maxOver (minorCorrs uniformChroma) := by
    rw [hM, hm]
  have hall : ∀ p : Mode × Fin 12, candidateCorr uniformChroma p = 0 := by
    intro p
    obtain ⟨m, i⟩ := p
    cases m <;> simp [candidateCorr, candScore, hM, hm]
  have hscore : candidateCorr uniformChroma ((analyzeChroma uniformChroma).1, 5) =
      candidateCorr uniformChroma (analyzeChroma uniformChroma) := by
    rw [hall, hall]
  exact ⟨htie, (C2_tie_prefers_minor_then_lowest_index uniformChroma).1 htie,
    (C2_tie_prefers_minor_then_lowest_index uniformChroma).2 5 hscore⟩

/-- C3: for every non-silent window the estimator evaluates all 24
(rotation, mode) candidates — the Pearson correlations of the rotated
normalized chroma against the Major and Minor profiles — and the returned
candidate's correlation is greater than or equal to the correlation of
every other candidate. -/
theorem C3_chosen_correlation_maximal : ∀ c : Fin 12 → ℚ, (∑ i, c i) ≠ 0 →
    ∀ p : Mode × Fin 12, candidateCorr c p ≤ candidateCorr c (analyzeChroma c) := by
  intro c _ p
  exact selectCandidate_is_max (majorCorrs c) (minorCorrs c) p

/-- C3, witness: the maximality theorem applied at the constant (non-silent)
chroma window and the candidate (major, rotation 3). -/
theorem C3_witness :
    (∑ i, uniformChroma i) ≠ 0 ∧
    candidateCorr uniformChroma (Mode.major, 3) ≤
      candidateCorr uniformChroma (analyzeChroma uniformChroma) := by
  have h : (∑ i, uniformChroma i) ≠ 0 := by simp [uniformChroma]
  exact ⟨h, C3_chosen_correlation_maximal uniformChroma h (Mode.major, 3)⟩

/-! ## Queue lemmas (C4) -/

theorem put_maxsize {α : Type} (q : PyQueue α) (x : α) :
    (q.put x).maxsize = q.maxsize := by
  unfold PyQueue.put
  split <;> rfl

theorem put_length_unbounded {α : Type} (q : PyQueue α) (x : α)
    (h : q.maxsize = 0) :
    (q.put x).items.length = q.items.length + 1 := by
  simp [PyQueue.put, h]

theorem putAll_length_unbounded {α : Type} (xs : List α) (q : PyQueue α)
    (h : q.maxsize = 0) :
    (q.putAll xs).items.length = q.items.length + xs.length := by
  induction xs generalizing q with
  | nil => rfl
  | cons x rest ih =>
    have hm : (q.put x).maxsize = 0 := by rw [put_maxsize, h]
    calc ((q.put x).putAll rest).items.length
        = (q.put x).items.length + rest.length := ih (q.put x) hm
      _ = q.items.length + (x :: rest).length := by
          rw [put_length_unbounded q x h]
          simp
          omega

/-- C4, counterexample: both block queues of the pipeline are created with
Python's queue.Queue() default, an infinite capacity (maxsize 0), and no
finite bound on the queue length holds across the reachable states: any
number of produced blocks is accepted and retained. -/
theorem C4_counterexample :
    kdAudioQueue.maxsize = 0 ∧ srtAudioQueue.maxsize = 0 ∧
    ¬ ∃ B : ℕ, ∀ xs : List (List ℚ),
        (srtAudioQueue.putAll xs).items.length ≤ B := by
  refine ⟨rfl, rfl, ?_⟩
  rintro ⟨B, hB⟩
  have h := hB (List.replicate (B + 1) [])
  rw [putAll_length_unbounded _ _ rfl] at h
  have h0 : srtAudioQueue.items.length = 0 := rfl
  rw [h0, List.length_replicate] at h
  omega

/-- C4, amended: the block queues between the acquisition side and the
analysis loop are unbounded (queue.Queue() with maxsize 0): a put always
appends immediately — the producer never waits and never drops a block —
so the queue length equals the number of blocks put; the consumer side's
non-blocking get on an empty queue yields the empty outcome rather than
failing. -/
theorem C4_queue_unbounded_put_never_drops :
    ∀ xs : List (List ℚ),
      (kdAudioQueue.putAll xs).items.length = xs.length ∧
      (srtAudioQueue.putAll xs).items.length = xs.length ∧
      srtAudioQueue.getNowait = none := by
  intro xs
  refine ⟨?_, ?_, rfl⟩
  · simpa [kdAudioQueue] using putAll_length_unbounded xs kdAudioQueue rfl
  · simpa [srtAudioQueue] using putAll_length_unbounded xs srtAudioQueue rfl

/-! ## Sliding-window buffer (C5) -/

theorem appendBlock_length_le (required : ℕ) (buf block : List ℚ)
    (h : 0 < required) :
    (appendBlock required buf block).length ≤ required := by
  unfold appendBlock
  by_cases h1 : required < (buf ++ block).length
  · rw [if_pos h1, if_neg (by omega)]
    rw [List.length_drop]
    omega
  · rw [if_neg h1]
    omega

/-- C5: for every append of a block onto the sliding-window buffer (with
the positive required_samples the configurations in use produce), the
buffer after trimming holds at most required_samples samples, and the
analysis step of that iteration runs exactly when the buffer holds at
least required_samples samples. -/
theorem C5_buffer_bounded_analysis_ready :
    ∀ (required : ℕ) (buf block : List ℚ), 0 < required →
      (processIteration required buf block).1.length ≤ required ∧
      ((processIteration required buf block).2 = true ↔
        required ≤ (processIteration required buf block).1.length) := by
  intro required buf block h
  constructor
  · exact appendBlock_length_le required buf block h
  · simp [processIteration, analysisRuns]

/-- C5, witness: a concrete append (buffer [1,2,3], block [4,5],
required_samples 4) stays within the bound and triggers analysis. -/
theorem C5_witness :
    0 < 4 ∧
    (processIteration 4 [1, 2, 3] [4, 5]).1.length ≤ 4 ∧
    ((processIteration 4 [1, 2, 3] [4, 5]).2 = true ↔
      4 ≤ (processIteration 4 [1, 2, 3] [4, 5]).1.length) := by
  refine ⟨by decide, ?_, ?_⟩
  · exact (C5_buffer_bounded_analysis_ready 4 [1, 2, 3] [4, 5] (by decide)).1
  · exact (C5_buffer_bounded_analysis_ready 4 [1, 2, 3] [4, 5] (by decide)).2

/-! ## Plugin chain (C6, C10) -/

/-- C6: a chain built by adding processors P1 then P2 and started
processes every block as the composition P2.process_block(P1.process_block
x); when each member's transformation preserves the block length so does
the chain; start_stream invokes the members in forward order [0, 1] and
stop_stream in reverse order [1, 0]. -/
theorem C6_chain_composition_and_order :
    ∀ (f1 f2 : List ℚ → List ℚ) (x : List ℚ),
      (∀ y, (f1 y).length = y.length) →
      (∀ y, (f2 y).length = y.length) →
      ((((emptyChain (List ℚ)).addPlugin (mkProcessor f1)).addPlugin
          (mkProcessor f2)).startStream.1.processBlock x =
        (mkProcessor f2).startStream.processBlock
          ((mkProcessor f1).startStream.processBlock x)) ∧
      (((((emptyChain (List ℚ)).addPlugin (mkProcessor f1)).addPlugin
          (mkProcessor f2)).startStream.1.processBlock x).length = x.length) ∧
      ((((emptyChain (List ℚ)).addPlugin (mkProcessor f1)).addPlugin
          (mkProcessor f2)).startStream.2 = [0, 1]) ∧
      ((((emptyChain (List ℚ)).addPlugin (mkProcessor f1)).addPlugin
          (mkProcessor f2)).startStream.1.stopStream.2 = [1, 0]) := by
    intro f1 f2 x h1 h2
    refine ⟨rfl, ?_, rfl, rfl⟩
    show (f2 (f1 x)).length = x.length
    rw [h2, h1]

/-- C6, witness: the chain theorem at two identity processors and the
block [1, 2]. -/
theorem C6_witness :
    ((((emptyChain (List ℚ)).addPlugin (mkProcessor id)).addPlugin
        (mkProcessor id)).startStream.1.processBlock [1, 2] =
      (mkProcessor (id : List ℚ → List ℚ)).startStream.processBlock
        ((mkProcessor (id : List ℚ → List ℚ)).startStream.processBlock [1, 2])) ∧
    ((((emptyChain (List ℚ)).addPlugin (mkProcessor id)).addPlugin
        (mkProcessor id)).startStream.2 = [0, 1]) := by
  have h := C6_chain_composition_and_order id id [1, 2]
    (fun y => rfl) (fun y => rfl)
  exact ⟨h.1, h.2.2.1⟩

/-- C10: a chain that is not streaming (never started, or stopped) or that
holds no plugins returns every block unchanged from process_block, and a
single processor that is not streaming likewise returns every block
unchanged — processing before start silently bypasses the plugins. -/
theorem C10_process_block_bypass :
    ∀ (c : PluginChain (List ℚ)) (p : Processor (List ℚ)) (x : List ℚ),
      (c.streaming = false → c.processBlock x = x) ∧
      (c.plugins = [] → c.processBlock x = x) ∧
      (p.streaming = false → p.processBlock x = x) := by
  intro c p x
  refine ⟨?_, ?_, ?_⟩ <;> intro h <;>
    simp [PluginChain.processBlock, Processor.processBlock, h]

/-- C10, witness: the bypass theorem at a concrete stopped chain and a
concrete non-streaming processor. -/
theorem C10_witness :
    (PluginChain.mk [mkProcessor (fun _ : List ℚ => [])] false).processBlock
        ([1, 2] : List ℚ) = [1, 2] ∧
    (mkProcessor (fun _ : List ℚ => [])).processBlock ([3] : List ℚ) = [3] := by
  constructor
  · exact (C10_process_block_bypass
      (PluginChain.mk [mkProcessor (fun _ : List ℚ => [])] false)
      (mkProcessor (fun _ => [])) [1, 2]).1 rfl
  · exact (C10_process_block_bypass
      (PluginChain.mk [] false)
      (mkProcessor (fun _ => [])) [3]).2.2 rfl

/-! ## Parameter contract (C7) -/

theorem lookup_map_update (l : List (String × ℚ)) (name : String) (v : ℚ)
    (h : (l.lookup name).isSome) :
    (l.map (fun kv => if kv.1 = name then (name, v) else kv)).lookup name
      = some v := by
  induction l with
  | nil => simp [List.lookup] at h
  | cons kv rest ih =>
    obtain ⟨k, b⟩ := kv
    by_cases hk : k = name
    · subst hk
      rw [List.map_cons,
        show (if (k, b).1 = k then (k, v) else (k, b)) = (k, v) from if_pos rfl]
      simp [List.lookup]
    · rw [List.map_cons,
        show (if (k, b).1 = name then (name, v) else (k, b)) = (k, b) from if_neg hk]
      have hne : (name == k) = false := by
        simp only [beq_eq_false_iff_ne, ne_eq]
        exact fun hx => hk hx.symm
      simp only [List.lookup, hne] at h ⊢
      exact ih h

/-- C7: for every processor, setting a parameter whose name is not among
the processor's parameters fails with UnknownParameter; setting a known
parameter to a value outside [0, 1] (such as 1.5) fails with
ParameterOutOfRange; and a successful set is immediately visible to a
subsequent get_parameters lookup. -/
theorem C7_set_parameter_contract :
    ∀ (p : VSTPlugin) (name : String) (v : ℚ),
      ((p.params.lookup name).isNone →
        p.setParameter name v = .error .UnknownParameter) ∧
      ((p.params.lookup name).isSome → v < 0 ∨ 1 < v →
        p.setParameter name v = .error .ParameterOutOfRange) ∧
      ((p.params.lookup name).isSome → 0 ≤ v → v ≤ 1 →
        ∃ p2, p.setParameter name v = .ok p2 ∧
          p2.getParameters.lookup name = some v) := by
  intro p name v
  refine ⟨?_, ?_, ?_⟩
  · intro h
    simp [VSTPlugin.setParameter, h]
  · intro h hv
    have hn : (p.params.lookup name).isNone = false := by
      cases hx : p.params.lookup name with
      | none => rw [hx] at h; simp at h
      | some w => rfl
    simp [VSTPlugin.setParameter, hn, hv]
  · intro h h0 h1
    have hn : (p.params.lookup name).isNone = false := by
      cases hx : p.params.lookup name with
      | none => rw [hx] at h; simp at h
      | some w => rfl
    have hr : ¬ (v < 0 ∨ 1 < v) := by
      push_neg
      exact ⟨h0, h1⟩
    refine ⟨VSTPlugin.mk
      (p.params.map (fun kv => if kv.1 = name then (name, v) else kv)), ?_, ?_⟩
    · simp [VSTPlugin.setParameter, hn, hr]
    · exact lookup_map_update p.params name v h

/-- C7, witness: on the concrete parameter map [("gain", 1/2)], an unknown
name fails with UnknownParameter, the value 3/2 (= 1.5) fails with
ParameterOutOfRange, and setting gain to 1/4 is visible to
get_parameters. -/
theorem C7_witness :
    (VSTPlugin.mk [("gain", 1/2)]).setParameter "bogus" (1/2)
        = .error .UnknownParameter ∧
    (VSTPlugin.mk [("gain", 1/2)]).setParameter "gain" (3/2)
        = .error .ParameterOutOfRange ∧
    ∃ p2, (VSTPlugin.mk [("gain", 1/2)]).setParameter "gain" (1/4) = .ok p2 ∧
      p2.getParameters.lookup "gain" = some (1/4) := by
  refine ⟨?_, ?_, ?_⟩
  · exact (C7_set_parameter_contract (VSTPlugin.mk [("gain", 1/2)]) "bogus" (1/2)).1
      (by decide)
  · exact (C7_set_parameter_contract (VSTPlugin.mk [("gain", 1/2)]) "gain" (3/2)).2.1
      (by decide) (by norm_num)
  · exact (C7_set_parameter_contract (VSTPlugin.mk [("gain", 1/2)]) "gain" (1/4)).2.2
      (by decide) (by norm_num) (by norm_num)

/-! ## Key-change notification (C8) -/

/-- C8: in one analysis-loop iteration with a registered listener, a new
estimate that differs from the stored key produces exactly one listener
invocation carrying (old key, new key) — the pair is formed from the
pre-update stored key, i.e. the listener runs before the stored key is
overwritten — and the stored key then becomes the new estimate; an
estimate equal to the stored key produces no invocation. -/
theorem C8_listener_fires_once_per_transition :
    ∀ (cur new : String),
      (new ≠ cur → (keyChangeStep true cur new).2 = [(cur, new)]) ∧
      (new = cur → (keyChangeStep true cur new).2 = []) ∧
      (keyChangeStep true cur new).1 = new := by
  intro cur new
  refine ⟨?_, ?_, rfl⟩
  · intro h
    simp [keyChangeStep, h]
  · intro h
    simp [keyChangeStep, h]

/-- C8, witness: the notification theorem at a concrete transition
("C major" to "A minor") and at a concrete repeat ("C major" again). -/
theorem C8_witness :
    (keyChangeStep true "C major" "A minor").2 = [("C major", "A minor")] ∧
    (keyChangeStep true "C major" "C major").2 = [] := by
  constructor
  · exact (C8_listener_fires_once_per_transition "C major" "A minor").1 (by decide)
  · exact (C8_listener_fires_once_per_transition "C major" "C major").2.1 rfl

/-! ## Start/stop idempotence (C9) -/

/-- C9: for the device-capture session and the SRT source alike, a second
start_stream right after a start is a no-op with no further observable
effect, and a second stop_stream right after a stop likewise; stop_stream
always succeeds and leaves the source stopped, and stopping an active
session joins the worker thread with the bounded timeout of 1 second. -/
theorem C9_start_stop_idempotent :
    ∀ s : Session,
      kdStart (kdStart s).1 = ((kdStart s).1, []) ∧
      kdStop (kdStop s).1 = ((kdStop s).1, []) ∧
      (kdStop s).1.streaming = false ∧
      srtStart (srtStart s).1 = ((srtStart s).1, []) ∧
      srtStop (srtStop s).1 = ((srtStop s).1, []) ∧
      (srtStop s).1.streaming = false ∧
      SessionEvent.joinThread 1 ∈ (kdStop (kdStart s).1).2 ∧
      SessionEvent.joinThread 1 ∈ (srtStop (srtStart s).1).2 := by
  intro s
  by_cases h : s.streaming <;>
    simp [kdStart, kdStop, srtStart, srtStop, h]

end Keychange
